import Mathlib

/-!  Verification of the bob-router routing core (src/index.js): a shallow
embedding of route matching (`Router.match`), the sequential step pipeline
(`Router.exec`), child-router delegation (`Router.child`), and the
preemption-safe navigation protocol of the exported Vuex module
(`actions.navigate`).  The external `path-to-regexp` dependency is treated
as an abstract capability (`Pattern`), per its interface: a matcher that
tests a concrete path and yields ordered capture values, plus the ordered
list of capture keys (named string keys or numeric positional keys). -/

set_option autoImplicit false

namespace BobRouter

/-- A property key of the JS params bag.  `path-to-regexp` capture keys are
either named (`key.name` is a string) or positional (`key.name` is a number,
as tested by `typeof key.name === 'number'` in `Router.match`).  Numeric keys
are `Int` because the delegation step decrements `params.length` with `--`,
which in JS can pass below zero. -/
inductive BKey where
  | named (s : String)
  | idx (n : Int)
deriving DecidableEq, Repr

/-- Errors observed by the pipeline: `Error('Not found')` from `exec`, a
`TypeError` raised by calling a method on a non-object (as happens in
`actions.navigate` when `router.post(params)` returns a non-promise), and
arbitrary errors thrown or rejected by user steps, actions or hooks. -/
inductive Err where
  | notFound
  | typeError (msg : String)
  | userErr (tag : String)
deriving DecidableEq, Repr

/-- The params bag.  In the source this is one dynamic JS object; reserved
keys (`router`, `route`, `error`, `length`) are modelled as dedicated fields
(cf. spec design notes), all other keys live in `props`.  `router` and
`route` hold object identities, modelled as the router's numeric `id` and
the matched route's index in that router's `routes` list.  `length` is
`none` when the key was never assigned (a fresh bag has no `length`).
Property values are `some s` for a string and `none` for `undefined` (an
optional capture group that did not participate still gets its key
assigned, with value `undefined`). -/
structure Params where
  router : Option Nat
  route : Option Nat
  error : Option Err
  length : Option Int
  props : List (BKey × Option String)
deriving DecidableEq, Repr

/-- `{}` — the empty bag `exec` and `navigate` default to. -/
def emptyParams : Params :=
  { router := none, route := none, error := none, length := none, props := [] }

/-- JS property read, `params[k]`: `none` when the key is absent,
`some v` when present (where `v = none` encodes the value `undefined`). -/
def getProp : List (BKey × Option String) → BKey → Option (Option String)
  | [], _ => none
  | (k, v) :: rest, q => if k = q then some v else getProp rest q

/-- JS property write, `params[k] = v`: overwrites an existing key in place,
otherwise appends. -/
def setProp : List (BKey × Option String) → BKey → Option String → List (BKey × Option String)
  | [], q, v => [(q, v)]
  | (k, w) :: rest, q, v =>
    if k = q then (k, v) :: rest else (k, w) :: setProp rest q v

/-- JS property delete, `delete params[k]`. -/
def delProp : List (BKey × Option String) → BKey → List (BKey × Option String)
  | [], _ => []
  | (k, w) :: rest, q =>
    if k = q then delProp rest q else (k, w) :: delProp rest q

/-- A JS value as far as the pipeline observes one: `undefined`, a string, a
plain object of defaults, or a params bag (the value a delegated
`child.exec` resolves with). -/
inductive JsValue where
  | undef
  | str (s : String)
  | obj (fields : List (BKey × Option String))
  | bag (p : Params)
deriving DecidableEq, Repr

/-- The compiled result of `pathToRegexp(path)`: an abstract external
capability (the dependency is not part of this repository).  `test`
models `re.exec(path)`: `none` when the regex does not match, otherwise the
ordered list of capture-group values `match[1], match[2], …` (`none` for a
group that did not participate).  `keys` models `re.keys`. -/
structure Pattern where
  test : String → Option (List (Option String))
  keys : List BKey

/-- The store collaborator passed through `exec` as
`{ state, dispatch, commit }`.  Only `dispatch` is called structurally by
the pipeline (for string steps); `state` is the ambient world `W` and
`commit` is reachable only through opaque function steps, which may
transform `W` arbitrarily.  `dispatch` receives the action name and the
params bag (which the action may mutate), and yields the new world, the
possibly-mutated bag, `some e` if the dispatched action threw/rejected, and
the value its promise resolved with. -/
structure Store (W : Type) where
  dispatch : String → Params → W → W × Params × Option Err × JsValue

/-- One element of a route's step list, per the `typeof step` switch in
`Router.exec`: a string (named action), a function (called with the store
context and the bag; may mutate both, may fail, resolves with a value), or
anything else (a plain object of defaults, `Object.assign`ed onto the bag). -/
inductive Step (W : Type) where
  | act (name : String)
  | fn (f : Store W → W → Params → W × Params × Option Err × JsValue)
  | obj (defaults : List (BKey × Option String))

/-- `Route` from src/index.js: the registered template `path`, the compiled
pattern `re`, and the step list.  The URL generator `_url` is not modelled
(no claim concerns URL generation). -/
structure Route (W : Type) where
  path : String
  pattern : Pattern
  steps : List (Step W)

/-- `Router` from src/index.js.  `id` models the JS object identity that
`params.router = this` stores into the bag.  The back-references
`parentRouter`/`baseRoute`/`storeModule` are inert for matching and
execution and are not modelled. -/
structure Router (W : Type) where
  id : Nat
  basePath : String
  routes : List (Route W)

/-- The `re.keys.forEach((key, i) => …)` loop of `Router.match`: binds each
capture `match[i + 1]` (out-of-range access yields `undefined`) under its
key, and after each numeric key sets `params.length = key.name + 1`. -/
def bindKeys : List BKey → List (Option String) → Nat → Params → Params
  | [], _, _, p => p
  | k :: rest, caps, i, p =>
    match k with
    | BKey.named s =>
      bindKeys rest caps (i + 1) {p with props := setProp p.props (BKey.named s) (caps.getD i none)}
    | BKey.idx n =>
      bindKeys rest caps (i + 1)
        {p with props := setProp p.props (BKey.idx n) (caps.getD i none),
                length := some (n + 1)}

/-- The `this.routes.find(({ re }) => …)` scan of `Router.match`: routes are
tried in insertion order; the first whose pattern matches gets its captures
bound into the bag (after `params.length = 0`) and is returned together with
its index; non-matching routes leave the bag untouched. -/
def findRoute {W : Type} (path : String) :
    List (Route W) → Nat → Params → Params × Option (Nat × Route W)
  | [], _, p => (p, none)
  | rt :: rest, i, p =>
    match rt.pattern.test path with
    | some caps =>
      (bindKeys rt.pattern.keys caps 0 {p with length := some 0}, some (i, rt))
    | none => findRoute path rest (i + 1) p

/-- `Router.match`, keeping hold of the matched `Route` object itself (in
the source, `params.route` holds the object and `exec` reads
`params.route.steps`; here the bag stores the index and the object rides
alongside). Sets `params.router = this` first, then scans, then assigns
`params.route` (the found route, or `undefined` when none matched). -/
def Router.matchFull {W : Type} (r : Router W) (path : String) (p : Params) :
    Params × Option (Nat × Route W) :=
  match findRoute path r.routes 0 {p with router := some r.id} with
  | (p1, res) => ({p1 with route := res.map Prod.fst}, res)

/-- `Router.match(path, params = {})` (the name `match` is reserved in
Lean): returns the mutated bag. -/
def Router.matchPath {W : Type} (r : Router W) (path : String) (p : Params) : Params :=
  (r.matchFull path p).1

/-- The `switch (typeof step)` body of the `Promise.mapSeries` mapper in
`Router.exec`.  Yields the new world, the bag, `some e` if the step threw
or rejected, and the value the step's promise resolved with (collected by
`mapSeries` but discarded by `.return(params)` — notably, an object
resolved by a function step is NOT merged into the bag). -/
def runStep {W : Type} (sf : Store W) (w : W) (p : Params) :
    Step W → W × Params × Option Err × JsValue
  | Step.act name => sf.dispatch name p w
  | Step.fn f => f sf w p
  | Step.obj ds =>
    (w, {p with props := ds.foldl (fun ps kv => setProp ps kv.1 kv.2) p.props}, none,
     JsValue.undef)

/-- `Promise.mapSeries(route.steps, …)`: steps run strictly in order, one at
a time; the first failure stops the iteration.  Per-step resolution values
are dropped (the source's `.return(params)` discards the collected array). -/
def runSteps {W : Type} (sf : Store W) (w : W) (p : Params) :
    List (Step W) → W × Params × Option Err
  | [] => (w, p, none)
  | s :: rest =>
    match runStep sf w p s with
    | (w1, p1, some e, _) => (w1, p1, some e)
    | (w1, p1, none, _) => runSteps sf w1 p1 rest

/-- `Router.exec({state, dispatch, commit}, path, params = {})`: matches,
then either runs the matched route's steps or rejects with `Not found`; the
trailing `.catch(error => { params.error = error })` folds any failure into
the bag, and `.return(params)` resolves with the bag.  The promise never
rejects, which is why the result type is a plain pair, not `Except`. -/
def Router.exec {W : Type} (sf : Store W) (r : Router W) (w : W) (path : String)
    (p : Params) : W × Params :=
  match r.matchFull path p with
  | (p1, some (_, rt)) =>
    (match runSteps sf w p1 rt.steps with
     | (w1, p2, some e) => (w1, {p2 with error := some e})
     | (w1, p2, none) => (w1, p2))
  | (p1, none) => (w, {p1 with error := some Err.notFound})

/-- `normalizePath`: `path.replace(/\/+$/, '')` — strip all trailing
slashes. -/
def normalizePath (path : String) : String :=
  path.dropRightWhile (fun c => c = '/')

/-- JS string coercion of a bag property as used in `'/' + params[restIdx]`:
an absent key or an `undefined` value both coerce to the string
"undefined". -/
def jsStr : Option (Option String) → String
  | some (some s) => s
  | some none => "undefined"
  | none => "undefined"

/-- The delegation step `Router.child` pushes onto the synthetic route:
`restIdx = --params.length` (on a bag with no `length`, JS produces `NaN`,
kept as `none`); the sub-path is `'/' + params[restIdx]` (read before the
`delete`); the key is deleted; then `child.exec(store, path, params)` runs
with the same store context and the pruned bag, and the step resolves with
the child's resulting bag. -/
def delegStep {W : Type} (child : Router W) : Step W :=
  Step.fn (fun sf w p =>
    match p.length with
    | some n =>
      match child.exec sf w ("/" ++ jsStr (getProp p.props (BKey.idx (n - 1))))
          {p with length := some (n - 1), props := delProp p.props (BKey.idx (n - 1))} with
      | (w1, p3) => (w1, p3, none, JsValue.bag p3)
    | none =>
      match child.exec sf w ("/" ++ "undefined") {p with length := none} with
      | (w1, p3) => (w1, p3, none, JsValue.bag p3))

/-- `Router.add(path, ...steps)`: compiles the template (via the external
`pathToRegexp`, passed in as `ptr`), appends the new route, returns it.  The
functional model returns the updated router alongside. -/
def Router.add {W : Type} (ptr : String → Pattern) (r : Router W) (path : String)
    (steps : List (Step W)) : Router W × Route W :=
  match ({ path := path, pattern := ptr path, steps := steps } : Route W) with
  | rt => ({r with routes := r.routes ++ [rt]}, rt)

/-- `Router.child(path, ...steps)`: normalizes the template, builds the
child router (`basePath` is the parent's normalized base plus the
template), and registers on the parent a synthetic route on
`path + '/*'` whose steps are the given steps followed by the delegation
step (the source pushes the delegation step onto the just-added route's
shared steps array).  Because the JS child object is mutated in place as
the caller later adds routes to it, the child's eventual routes list is
supplied explicitly (`childRoutes`); `freshId` models the new object's
identity. -/
def Router.child {W : Type} (ptr : String → Pattern) (freshId : Nat) (r : Router W)
    (tpl : String) (steps : List (Step W)) (childRoutes : List (Route W)) :
    Router W × Router W :=
  match ({ id := freshId, basePath := normalizePath r.basePath ++ normalizePath tpl,
           routes := childRoutes } : Router W) with
  | child =>
    match ({ path := normalizePath tpl ++ "/*",
             pattern := ptr (normalizePath tpl ++ "/*"),
             steps := steps ++ [delegStep child] } : Route W) with
    | rt => ({r with routes := r.routes ++ [rt]}, child)

/-- The handle token `actions.navigate` allocates per navigation
(`currentHandle = { path }`).  JS compares handles by object identity
(`currentHandle === handle`); `hid` models the identity of the allocation,
drawn from a strictly increasing counter so distinct allocations are never
equal. -/
structure Handle where
  hid : Nat
  path : String
deriving DecidableEq, Repr

/-- The module `state`: `progress`, last committed `path`, last committed
`params`. -/
structure NavState where
  progress : Bool
  path : String
  params : Params
deriving DecidableEq, Repr

/-- The mutation `navigating(state)`. -/
def navigating (s : NavState) : NavState :=
  {s with progress := true}

/-- The mutation `navigated(state, { path, params })`. -/
def navigated (_s : NavState) (path : String) (params : Params) : NavState :=
  { progress := false, path := path, params := params }

/-- The controller's observable state: the module closure variable
`currentHandle`, the allocation counter behind handle identities, the Vuex
module state, the external `location.hash`, and a counter of how many times
`router.exec` has been started (the pipeline-execution count the
duplicate-path guard is about). -/
structure Ctrl where
  currentHandle : Handle
  nextHid : Nat
  nav : NavState
  locationHash : String
  execStarts : Nat
deriving DecidableEq, Repr

/-- The synchronous prefix of `actions.navigate(path)`: the duplicate-path
guard (`currentHandle.path === path` means a complete no-op, returning no
handle), else a fresh handle is allocated and recorded as current, the
`navigating` mutation is committed, and `router.exec` is started. -/
def navStart (c : Ctrl) (path : String) : Ctrl × Option Handle :=
  if c.currentHandle.path = path then (c, none)
  else
    match ({ hid := c.nextHid, path := path } : Handle) with
    | h =>
      ({c with currentHandle := h, nextHid := c.nextHid + 1,
               nav := navigating c.nav, execStarts := c.execStarts + 1},
       some h)

/-- What calling the post hook `router.post(params)` does, observed at the
promise level: the hook may mutate the bag, and then either returned a
non-thenable value (so the subsequent `.catch(…)` call is a `TypeError`),
returned a promise that fulfilled, returned a promise that rejected, or
threw synchronously. -/
inductive HookResult where
  | val (v : JsValue)
  | resolved
  | rejected (e : Err)
  | thrown (e : Err)
deriving Repr

/-- The first `.tap` of `actions.navigate`:
`router.post(params).catch(error => { params.error = error })`.
A rejected hook promise is caught into `params.error` and the tap
fulfills; a fulfilled hook promise passes through; but a hook that
returns a non-promise (including the default `router.post = () => {}`,
which returns `undefined`) makes the `.catch` property access throw a
`TypeError`, and a hook that throws synchronously escapes before `.catch`
is attached — in both of those cases the tap's promise REJECTS (`some e`
in the third position). -/
def hookPhase (post : Params → Params × HookResult) (p : Params) : Params × Option Err :=
  match post p with
  | (p1, HookResult.val _) => (p1, some (Err.typeError "post(params).catch is not a function"))
  | (p1, HookResult.resolved) => (p1, none)
  | (p1, HookResult.rejected e) => ({p1 with error := some e}, none)
  | (p1, HookResult.thrown e) => (p1, some e)

/-- The default post hook installed by the module factory:
`router.post = () => {}` — returns `undefined` without touching the bag. -/
def defaultPost : Params → Params × HookResult :=
  fun p => (p, HookResult.val JsValue.undef)

/-- The second `.tap` of `actions.navigate`: the commit-or-discard decision.
Only if the navigation's own handle is still the recorded current one does
the controller write the location marker (`location.hash = '#' + path`) and
commit the `navigated` mutation; otherwise nothing is mutated. -/
def commitPhase (h : Handle) (path : String) (params : Params) (c : Ctrl) : Ctrl :=
  if c.currentHandle = h then
    {c with locationHash := "#" ++ path, nav := navigated c.nav path params}
  else c

/-- Everything `actions.navigate` does after `router.exec`'s promise
fulfills with the bag: the hook tap, then — only if the hook tap fulfilled —
the commit tap.  Returns the controller state, the bag, and `some e` when
the promise returned by `navigate` rejects (in which case the commit tap's
callback never ran). -/
def afterExec (post : Params → Params × HookResult) (h : Handle) (path : String)
    (c : Ctrl) (p : Params) : Ctrl × Params × Option Err :=
  match hookPhase post p with
  | (p1, some e) => (c, p1, some e)
  | (p1, none) => (commitPhase h path p1 c, p1, none)

/-! ### Statement-side helper functions -/

/-- The last value assigned to key `q` when the fields of a plain object are
copied in order (`Object.assign` lets later duplicate keys win). -/
def lastVal : List (BKey × Option String) → BKey → Option (Option String)
  | [], _ => none
  | (k, v) :: rest, q =>
    match lastVal rest q with
    | some w => some w
    | none => if k = q then some v else none

/-- The numeric capture keys of a key list, in order. -/
def numKeys : List BKey → List Int
  | [] => []
  | BKey.named _ :: rest => numKeys rest
  | BKey.idx n :: rest => n :: numKeys rest

/-- Last element of an integer list. -/
def lastI : List Int → Option Int
  | [] => none
  | n :: rest => some ((lastI rest).getD n)

/-- Maximum of an integer list. -/
def listMax : List Int → Option Int
  | [] => none
  | n :: rest => some ((listMax rest).elim n (max n))

/-- Forget the value a step resolved with, keeping world, bag and failure —
exactly what `Router.exec` observes of a step. -/
def stripVal {W : Type} (x : W × Params × Option Err × JsValue) : W × Params × Option Err :=
  (x.1, x.2.1, x.2.2.1)

/-! ### Concrete instances (used by counterexamples and witnesses)

Patterns are concrete instances of the external `path-to-regexp`
capability: list-of-characters prefix chopping keeps them kernel-computable. -/

/-- Strip an expected leading character sequence, yielding the remainder. -/
def chopPre : List Char → List Char → Option (List Char)
  | [], s => some s
  | _, [] => none
  | c :: pre1, d :: s => if c = d then chopPre pre1 s else none

/-- Strip an expected leading string, yielding the remainder. -/
def strChop (pre1 s : String) : Option String :=
  (chopPre pre1.data s.data).map (fun cs => String.mk cs)

/-- Matcher for `/users/:id`. -/
def patUsers : Pattern :=
  { test := fun s => (strChop "/users/" s).map (fun r2 => [some r2]),
    keys := [BKey.named "id"] }

/-- A second matcher for user paths, binding `uid` (a later duplicate-ish
route for the first-match test). -/
def patUsersB : Pattern :=
  { test := fun s => (strChop "/users/" s).map (fun r2 => [some r2]),
    keys := [BKey.named "uid"] }

/-- Matcher for `/posts/:postId`. -/
def patPosts : Pattern :=
  { test := fun s => (strChop "/posts/" s).map (fun r2 => [some r2]),
    keys := [BKey.named "postId"] }

/-- Matcher with one named and two positional keys (numeric keys 0 and 2). -/
def patMulti : Pattern :=
  { test := fun s => if s = "/m/a/b/c" then some [some "a", some "b", some "c"] else none,
    keys := [BKey.named "a", BKey.idx 0, BKey.idx 2] }

/-- Matcher for `/n/:x` — no numeric keys. -/
def patNoNum : Pattern :=
  { test := fun s => (strChop "/n/" s).map (fun r2 => [some r2]),
    keys := [BKey.named "x"] }

/-- Matcher for `/x` exactly, no captures. -/
def patX : Pattern :=
  { test := fun s => if s = "/x" then some [] else none, keys := [] }

/-- Matcher for `/x/:y`. -/
def patXY : Pattern :=
  { test := fun s => (strChop "/x/" s).map (fun r2 => [some r2]),
    keys := [BKey.named "y"] }

/-- A store over a `List String` world whose `dispatch` logs the action
name. -/
def sfLog : Store (List String) :=
  { dispatch := fun name p w => (w ++ [name], p, none, JsValue.undef) }

/-- A store over a `Nat` world whose `dispatch` bumps a side-effect
counter. -/
def sfCnt : Store Nat :=
  { dispatch := fun _ p w => (w + 1, p, none, JsValue.undef) }

/-- Router whose single route carries a default-object step that collides
with the named capture `id`. -/
def cexRouter : Router (List String) :=
  { id := 1, basePath := "",
    routes := [{ path := "/users/:id", pattern := patUsers,
                 steps := [Step.obj [(BKey.named "id", some "def")]] }] }

/-- Routes for the first-match test. -/
def rtPosts : Route (List String) :=
  { path := "/posts/:postId", pattern := patPosts, steps := [] }

def rtUsers1 : Route (List String) :=
  { path := "/users/:id", pattern := patUsers, steps := [] }

def rtUsers2 : Route (List String) :=
  { path := "/users/:uid", pattern := patUsersB, steps := [] }

/-- Router registering a non-matching route, then two routes that both
match `/users/42`. -/
def c2Router : Router (List String) :=
  { id := 2, basePath := "", routes := [rtPosts, rtUsers1, rtUsers2] }

def rtMulti : Route (List String) :=
  { path := "/m/:a/(x)/(y)", pattern := patMulti, steps := [] }

def rtNoNum : Route (List String) :=
  { path := "/n/:x", pattern := patNoNum, steps := [] }

def c6Router : Router (List String) :=
  { id := 3, basePath := "", routes := [rtMulti] }

def c6RouterB : Router (List String) :=
  { id := 4, basePath := "", routes := [rtNoNum] }

/-- A function step that rejects. -/
def stepFail : Step Nat :=
  Step.fn (fun _ w p => (w, p, some (Err.userErr "boom"), JsValue.undef))

def c4Route : Route Nat :=
  { path := "/x", pattern := patX, steps := [Step.act "s1", stepFail, Step.act "s3"] }

def c4Router : Router Nat :=
  { id := 5, basePath := "", routes := [c4Route] }

/-- The bag right after `c4Router` matches `/x`. -/
def c4pm : Params :=
  { router := some 5, route := some 0, error := none, length := some 0, props := [] }

def c10Route : Route Nat :=
  { path := "/users/:id", pattern := patUsers,
    steps := [Step.obj [(BKey.named "role", some "member")], stepFail, Step.act "s3"] }

def c10Router : Router Nat :=
  { id := 6, basePath := "", routes := [c10Route] }

/-- The bag right after `c10Router` matches `/users/42`. -/
def c10pm : Params :=
  { router := some 6, route := some 0, error := none, length := some 0,
    props := [(BKey.named "id", some "42")] }

/-- The bag after the default-object step also ran. -/
def c10p2 : Params :=
  { router := some 6, route := some 0, error := none, length := some 0,
    props := [(BKey.named "id", some "42"), (BKey.named "role", some "member")] }

/-- The controller's initial state (`currentHandle = { path: '' }`). -/
def ctrl0 : Ctrl :=
  { currentHandle := { hid := 0, path := "" }, nextHid := 1,
    nav := { progress := false, path := "", params := emptyParams },
    locationHash := "", execStarts := 0 }

/-- Controller state after `navStart ctrl0 "/a"`. -/
def c1cA : Ctrl :=
  { currentHandle := { hid := 1, path := "/a" }, nextHid := 2,
    nav := { progress := true, path := "", params := emptyParams },
    locationHash := "", execStarts := 1 }

/-- Controller state after `navStart c1cA "/b"`. -/
def c1cB : Ctrl :=
  { currentHandle := { hid := 2, path := "/b" }, nextHid := 3,
    nav := { progress := true, path := "", params := emptyParams },
    locationHash := "", execStarts := 2 }

/-- A controller already holding a handle for `/p`. -/
def c7done : Ctrl :=
  { currentHandle := { hid := 7, path := "/p" }, nextHid := 8,
    nav := { progress := false, path := "/p", params := emptyParams },
    locationHash := "#/p", execStarts := 3 }

/-- A well-behaved hook: returns a promise that fulfills, bag untouched. -/
def postOk : Params → Params × HookResult :=
  fun p => (p, HookResult.resolved)

/-- A hook that throws synchronously. -/
def postThrow : Params → Params × HookResult :=
  fun p => (p, HookResult.thrown (Err.userErr "hookboom"))

/-- A hook that returns a rejected promise. -/
def postReject : Params → Params × HookResult :=
  fun p => (p, HookResult.rejected (Err.userErr "hookboom"))

/-- Router and controller for the not-found scenario: `/nowhere` matches
nothing; the controller currently holds the handle for `/nowhere`. -/
def c5Router : Router (List String) :=
  { id := 7, basePath := "", routes := [rtUsers1] }

def c5Ctrl : Ctrl :=
  { currentHandle := { hid := 3, path := "/nowhere" }, nextHid := 4,
    nav := { progress := true, path := "/prev", params := emptyParams },
    locationHash := "#/prev", execStarts := 1 }

def c9Ctrl : Ctrl :=
  { currentHandle := { hid := 5, path := "/a" }, nextHid := 6,
    nav := { progress := true, path := "", params := emptyParams },
    locationHash := "", execStarts := 1 }

def c9Bag : Params :=
  { router := some 1, route := some 0, error := none, length := some 0, props := [] }

/-- A bag holding a named capture, for the default-merge statements. -/
def c3wBag : Params :=
  { router := none, route := none, error := none, length := none,
    props := [(BKey.named "id", some "42")] }

/-- A function step resolving with an object — per the claim, its fields
would be merged as defaults. -/
def fnValObj : Store Nat → Nat → Params → Nat × Params × Option Err × JsValue :=
  fun _ w p => (w, p, none, JsValue.obj [(BKey.named "role", some "admin")])

/-- The same step resolving with `undefined` instead. -/
def fnValUndef : Store Nat → Nat → Params → Nat × Params × Option Err × JsValue :=
  fun _ w p => (w, p, none, JsValue.undef)

/-- A tiny `path-to-regexp` model for the child-delegation witness: only
the synthetic wildcard `/sub/*` compiles to a real matcher. -/
def ptrDemo : String → Pattern :=
  fun tpl =>
    if tpl = "/sub/*" then
      { test := fun s => (strChop "/sub/" s).map (fun r2 => [some r2]),
        keys := [BKey.idx 0] }
    else { test := fun _ => none, keys := [] }

def c8ChildRoutes : List (Route (List String)) :=
  [{ path := "/x/:y", pattern := patXY, steps := [] }]

def c8Parent : Router (List String) :=
  { id := 8, basePath := "", routes := [] }

/-- A bag as the wildcard match leaves it: `length = 2`, rest capture
`"x/y"` at numeric key 1. -/
def c8Bag : Params :=
  { router := none, route := none, error := none, length := some 2,
    props := [(BKey.idx 1, some "x/y")] }

/-! ### Helper lemmas -/

theorem getProp_setProp (ps : List (BKey × Option String)) (k q : BKey) (v : Option String) :
    getProp (setProp ps k v) q = if k = q then some v else getProp ps q := by
  induction ps with
  | nil =>
    by_cases h : k = q <;> simp [setProp, getProp, h]
  | cons kv rest ih =>
    obtain ⟨k1, v1⟩ := kv
    by_cases h1 : k1 = k
    · subst h1
      by_cases h2 : k1 = q <;> simp [setProp, getProp, h2]
    · by_cases h2 : k1 = q
      · subst h2
        simp [setProp, getProp, h1, Ne.symm h1]
      · simp [setProp, getProp, h1, h2, ih]

theorem getProp_assign (ds : List (BKey × Option String)) (ps : List (BKey × Option String))
    (q : BKey) :
    getProp (ds.foldl (fun a kv => setProp a kv.1 kv.2) ps) q
      = match lastVal ds q with
        | some v => some v
        | none => getProp ps q := by
  induction ds generalizing ps with
  | nil => simp [lastVal]
  | cons kv rest ih =>
    obtain ⟨k, v⟩ := kv
    simp only [List.foldl_cons, ih (setProp ps k v), lastVal]
    cases lastVal rest q with
    | some w => simp
    | none =>
      rw [getProp_setProp]
      by_cases hk : k = q <;> simp [hk]

theorem findRoute_append_none {W : Type} (path : String) (pre l : List (Route W))
    (i : Nat) (p : Params) (hpre : ∀ rt ∈ pre, rt.pattern.test path = none) :
    findRoute path (pre ++ l) i p = findRoute path l (i + pre.length) p := by
  induction pre generalizing i with
  | nil => simp [findRoute]
  | cons rt rest ih =>
    have h0 : rt.pattern.test path = none := hpre rt (by simp)
    have h1 : ∀ x ∈ rest, x.pattern.test path = none := fun x hx => hpre x (by simp [hx])
    simp only [List.cons_append, findRoute, h0, List.length_cons]
    have h2 := ih (i + 1) h1
    have harith : i + 1 + rest.length = i + (rest.length + 1) := by omega
    rw [harith] at h2
    exact h2

theorem runSteps_append {W : Type} (sf : Store W) (xs ys : List (Step W)) (w : W) (p : Params) :
    runSteps sf w p (xs ++ ys)
      = match runSteps sf w p xs with
        | (w1, p1, some e) => (w1, p1, some e)
        | (w1, p1, none) => runSteps sf w1 p1 ys := by
  induction xs generalizing w p with
  | nil => simp [runSteps]
  | cons s rest ih =>
    simp only [List.cons_append, runSteps]
    rcases h : runStep sf w p s with ⟨w1, p1, e?, v⟩
    cases e? <;> simp [ih]

theorem bindKeys_length (keys : List BKey) (caps : List (Option String)) (i : Nat) (p : Params) :
    (bindKeys keys caps i p).length
      = match lastI (numKeys keys) with
        | some n => some (n + 1)
        | none => p.length := by
  induction keys generalizing i p with
  | nil => simp [bindKeys, numKeys, lastI]
  | cons k rest ih =>
    cases k with
    | named s => simp [bindKeys, numKeys, ih]
    | idx n =>
      simp only [bindKeys, numKeys, lastI, ih]
      cases h : lastI (numKeys rest) <;> simp

theorem listMax_mem (l : List Int) (m : Int) (h : listMax l = some m) : m ∈ l := by
  induction l generalizing m with
  | nil => simp [listMax] at h
  | cons n rest ih =>
    simp only [listMax, Option.some.injEq] at h
    cases hr : listMax rest with
    | none =>
      rw [hr] at h
      simp only [Option.elim] at h
      simp [← h]
    | some m1 =>
      rw [hr] at h
      simp only [Option.elim] at h
      rcases max_choice n m1 with hc | hc <;> rw [hc] at h
      · simp [← h]
      · rw [← h]
        exact List.mem_cons_of_mem n (ih m1 hr)

theorem lastI_eq_max_of_sorted (l : List Int) (h : l.Pairwise (· < ·)) :
    lastI l = listMax l := by
  induction l with
  | nil => rfl
  | cons n rest ih =>
    have hlt : ∀ m ∈ rest, n < m := fun m hm => (List.pairwise_cons.mp h).1 m hm
    have hp : rest.Pairwise (· < ·) := (List.pairwise_cons.mp h).2
    simp only [lastI, listMax, ih hp]
    cases hr : listMax rest with
    | none => simp
    | some m =>
      have hm : m ∈ rest := listMax_mem rest m hr
      have : n < m := hlt m hm
      simp [Option.elim, max_eq_right (le_of_lt this)]

/-- Shared: what `Router.exec` produces when the matched route's step list
is `spre ++ s :: srest`, every step of `spre` succeeds, and `s` fails. -/
theorem exec_of_step_failure {W : Type} (sf : Store W) (r : Router W) (w : W) (path : String)
    (p : Params) (pm : Params) (i : Nat) (rt : Route W) (spre srest : List (Step W))
    (s : Step W) (w2 w3 : W) (p2 p3 : Params) (e : Err) (v : JsValue)
    (hm : r.matchFull path p = (pm, some (i, rt)))
    (hsteps : rt.steps = spre ++ s :: srest)
    (hrunpre : runSteps sf w pm spre = (w2, p2, none))
    (hfail : runStep sf w2 p2 s = (w3, p3, some e, v)) :
    r.exec sf w path p = (w3, {p3 with error := some e}) := by
  have hx : r.exec sf w path p
      = (match runSteps sf w pm rt.steps with
         | (w1, q, some e1) => (w1, {q with error := some e1})
         | (w1, q, none) => (w1, q)) := by
    unfold Router.exec
    rw [hm]
  rw [hx, hsteps, runSteps_append, hrunpre]
  simp only [runSteps, hfail]

/-- C2: first-match precedence.  If the router's insertion-ordered routes
list is `pre ++ R1 :: mid ++ R2 :: suf`, nothing in `pre` matches `path`,
and both R1's and R2's patterns match, then `Router.match` binds
`params.route` to R1 (its index, `pre.length`) and the bag receives exactly
R1's captures — R2 contributes nothing. -/
theorem claim_c2 {W : Type} (r : Router W) (path : String) (p : Params)
    (pre mid suf : List (Route W)) (R1 R2 : Route W)
    (capsI capsJ : List (Option String))
    (hroutes : r.routes = pre ++ (R1 :: (mid ++ (R2 :: suf))))
    (hpre : ∀ rt ∈ pre, rt.pattern.test path = none)
    (h1 : R1.pattern.test path = some capsI)
    (h2 : R2.pattern.test path = some capsJ) :
    r.matchPath path p
      = {bindKeys R1.pattern.keys capsI 0
           {p with router := some r.id, length := some 0} with route := some pre.length} := by
  unfold Router.matchPath Router.matchFull
  rw [hroutes, findRoute_append_none path pre _ 0 _ hpre]
  simp [findRoute, h1]

/-- C6: on a successful match whose pattern's numeric capture keys appear
in strictly increasing order (as `path-to-regexp` emits them), the bag's
`length` is `1 +` the maximum numeric key, and `0` when the pattern has no
numeric keys. -/
theorem claim_c6 {W : Type} (r : Router W) (path : String) (p : Params)
    (pre suf : List (Route W)) (rt : Route W) (caps : List (Option String))
    (hroutes : r.routes = pre ++ rt :: suf)
    (hpre : ∀ x ∈ pre, x.pattern.test path = none)
    (ht : rt.pattern.test path = some caps)
    (hsorted : (numKeys rt.pattern.keys).Pairwise (· < ·)) :
    (r.matchPath path p).length
      = some (match listMax (numKeys rt.pattern.keys) with
              | none => 0
              | some m => m + 1) := by
  unfold Router.matchPath Router.matchFull
  rw [hroutes, findRoute_append_none path pre _ 0 _ hpre]
  simp only [findRoute, ht]
  rw [bindKeys_length, lastI_eq_max_of_sorted _ hsorted]
  cases listMax (numKeys rt.pattern.keys) <;> simp

/-- C4: pipeline short-circuit.  Steps run strictly in order; if after the
(successful) steps `spre` the step `s` fails with `e`, the remaining steps
`srest` never execute — the result does not depend on them — the bag's
`error` field is set to the failure, and `exec` still resolves with the bag
(`Router.exec` is a total function into `W × Params`; the source's
`.catch`/`.return(params)` never lets the promise reject). -/
theorem claim_c4 {W : Type} (sf : Store W) (r : Router W) (w : W) (path : String)
    (p : Params) (pm : Params) (i : Nat) (rt : Route W) (spre srest : List (Step W))
    (s : Step W) (w2 w3 : W) (p2 p3 : Params) (e : Err) (v : JsValue)
    (hm : r.matchFull path p = (pm, some (i, rt)))
    (hsteps : rt.steps = spre ++ s :: srest)
    (hrunpre : runSteps sf w pm spre = (w2, p2, none))
    (hfail : runStep sf w2 p2 s = (w3, p3, some e, v)) :
    r.exec sf w path p = (w3, {p3 with error := some e}) :=
  exec_of_step_failure sf r w path p pm i rt spre srest s w2 w3 p2 p3 e v hm hsteps hrunpre hfail

/-- C10: `exec` is not atomic on failure.  Under the same failing run, the
resolved bag is exactly the bag as mutated up to and including the failing
step (`p3`), with only `error` added: named captures from the match and all
mutations by the earlier steps persist; nothing is rolled back to the
pre-exec or pre-step state. -/
theorem claim_c10 {W : Type} (sf : Store W) (r : Router W) (w : W) (path : String)
    (p : Params) (pm : Params) (i : Nat) (rt : Route W) (spre srest : List (Step W))
    (s : Step W) (w2 w3 : W) (p2 p3 : Params) (e : Err) (v : JsValue)
    (hm : r.matchFull path p = (pm, some (i, rt)))
    (hsteps : rt.steps = spre ++ s :: srest)
    (hrunpre : runSteps sf w pm spre = (w2, p2, none))
    (hfail : runStep sf w2 p2 s = (w3, p3, some e, v)) :
    (r.exec sf w path p).2.props = p3.props
    ∧ (r.exec sf w path p).2.error = some e
    ∧ (r.exec sf w path p).2.length = p3.length
    ∧ (r.exec sf w path p).2.route = p3.route
    ∧ (r.exec sf w path p).2.router = p3.router := by
  rw [exec_of_step_failure sf r w path p pm i rt spre srest s w2 w3 p2 p3 e v hm hsteps
    hrunpre hfail]
  simp

/-- C1: preemption safety.  First conjunct, the identity check itself: a
completion whose handle is no longer the recorded current one changes
nothing — no location-marker write, no `navigated` commit — whatever its
hook does.  Second conjunct, the two-navigation scenario: A starts, B
starts (different path), B's completion commits; A's later completion
leaves the controller exactly as B committed it: location marker and
committed path/params are B's. -/
theorem claim_c1 :
    (∀ (post : Params → Params × HookResult) (h : Handle) (path : String) (p : Params)
        (c : Ctrl), c.currentHandle ≠ h → (afterExec post h path c p).1 = c)
    ∧ (∀ (c0 : Ctrl) (pA pB : String) (pa pb : Params)
          (postA postB : Params → Params × HookResult) (c1 c2 : Ctrl) (hA hB : Handle),
        c0.currentHandle.path ≠ pA → pB ≠ pA →
        navStart c0 pA = (c1, some hA) → navStart c1 pB = (c2, some hB) →
        (hookPhase postB pb).2 = none →
        (afterExec postA hA pA (afterExec postB hB pB c2 pb).1 pa).1
            = (afterExec postB hB pB c2 pb).1
          ∧ (afterExec postB hB pB c2 pb).1.locationHash = "#" ++ pB
          ∧ (afterExec postB hB pB c2 pb).1.nav.path = pB
          ∧ (afterExec postB hB pB c2 pb).1.nav.params = (hookPhase postB pb).1
          ∧ (afterExec postB hB pB c2 pb).1.nav.progress = false) := by
  have guard : ∀ (post : Params → Params × HookResult) (h : Handle) (path : String)
      (p : Params) (c : Ctrl), c.currentHandle ≠ h → (afterExec post h path c p).1 = c := by
    intro post h path p c hne
    unfold afterExec
    rcases hh : hookPhase post p with ⟨p1, e?⟩
    cases e? with
    | some e => rfl
    | none =>
      simp only [commitPhase, if_neg hne]
  refine ⟨guard, ?_⟩
  intro c0 pA pB pa pb postA postB c1 c2 hA hB h1 h2 hnA hnB hhook
  simp only [navStart, if_neg h1, Prod.mk.injEq, Option.some.injEq] at hnA
  obtain ⟨hc1, hhA⟩ := hnA
  have hc1cur : c1.currentHandle = { hid := c0.nextHid, path := pA } := by rw [← hc1]
  have hc1hid : c1.nextHid = c0.nextHid + 1 := by rw [← hc1]
  have hgB : ¬ (c1.currentHandle.path = pB) := by
    rw [hc1cur]
    exact fun hq => h2 hq.symm
  simp only [navStart, if_neg hgB, Prod.mk.injEq, Option.some.injEq] at hnB
  obtain ⟨hc2, hhB⟩ := hnB
  have hc2cur : c2.currentHandle = { hid := c1.nextHid, path := pB } := by rw [← hc2]
  have hBdef : hB = { hid := c1.nextHid, path := pB } := hhB.symm
  rcases hh : hookPhase postB pb with ⟨q, e?⟩
  have he : e? = none := by rw [hh] at hhook; exact hhook
  subst he
  have hB3 : (afterExec postB hB pB c2 pb).1
      = {c2 with locationHash := "#" ++ pB, nav := navigated c2.nav pB q} := by
    unfold afterExec
    rw [hh]
    simp [commitPhase, hc2cur, hBdef]
  have hne : ({c2 with locationHash := "#" ++ pB, nav := navigated c2.nav pB q} :
      Ctrl).currentHandle ≠ hA := by
    have hcc : ({c2 with locationHash := "#" ++ pB, nav := navigated c2.nav pB q} :
        Ctrl).currentHandle = c2.currentHandle := rfl
    rw [hcc, hc2cur, ← hhA]
    intro hq
    have h5 := congrArg Handle.hid hq
    simp only [hc1hid] at h5
    omega
  refine ⟨?_, ?_, ?_, ?_, ?_⟩
  · rw [hB3]
    exact guard postA hA pA pa _ hne
  · rw [hB3]
  · rw [hB3]
    rfl
  · rw [hB3]
    rfl
  · rw [hB3]
    rfl

/-- C7: the duplicate-path guard.  Navigating to the path already held by
the current handle is a complete no-op (no state change, no handle, no
`navigating` commit, no pipeline start); and if a first `navigate(p)` does
start, an immediately repeated `navigate(p)` is such a no-op, so exactly
one pipeline execution is triggered (`execStarts` grows by one). -/
theorem claim_c7 (c : Ctrl) (p : String) :
    (c.currentHandle.path = p → navStart c p = (c, none))
    ∧ (∀ (c1 : Ctrl) (h : Handle), navStart c p = (c1, some h) →
        navStart c1 p = (c1, none) ∧ c1.execStarts = c.execStarts + 1
          ∧ c1.nextHid = c.nextHid + 1 ∧ c1.nav = navigating c.nav) := by
  constructor
  · intro hg
    simp [navStart, hg]
  · intro c1 h heq
    by_cases hg : c.currentHandle.path = p
    · simp [navStart, hg] at heq
    · simp only [navStart, if_neg hg, Prod.mk.injEq, Option.some.injEq] at heq
      obtain ⟨hc1, hh⟩ := heq
      rw [← hc1]
      simp [navStart]

/-- C8: `child(tpl, ...steps)` registers on the parent a synthetic route on
the trailing-slash-normalized template plus `"/*"` whose step list is the
given steps followed by the delegation step; and the delegation step, run
on a bag whose positional capture at index `length - 1` is `rest` (as the
external wildcard matcher binds it for a path `prefix + "/" + rest`),
decrements `length`, deletes that key, and invokes the child router's
`exec` with path `"/" + rest`, the same store context and the pruned bag,
resolving with the child's resulting bag. -/
theorem claim_c8 {W : Type} (ptr : String → Pattern) (freshId : Nat) (r : Router W)
    (tpl : String) (steps : List (Step W)) (childRoutes : List (Route W))
    (sf : Store W) (w : W) (p : Params) (n : Int) (rest : String)
    (hlen : p.length = some n)
    (hrest : getProp p.props (BKey.idx (n - 1)) = some (some rest)) :
    (Router.child ptr freshId r tpl steps childRoutes).1.routes
        = r.routes
          ++ [{ path := normalizePath tpl ++ "/*",
                pattern := ptr (normalizePath tpl ++ "/*"),
                steps := steps
                  ++ [delegStep (Router.child ptr freshId r tpl steps childRoutes).2] }]
    ∧ (Router.child ptr freshId r tpl steps childRoutes).2
        = { id := freshId, basePath := normalizePath r.basePath ++ normalizePath tpl,
            routes := childRoutes }
    ∧ runStep sf w p (delegStep (Router.child ptr freshId r tpl steps childRoutes).2)
        = (match Router.exec sf (Router.child ptr freshId r tpl steps childRoutes).2 w
              ("/" ++ rest)
              {p with length := some (n - 1),
                      props := delProp p.props (BKey.idx (n - 1))} with
           | (w1, p3) => (w1, p3, none, JsValue.bag p3)) := by
  refine ⟨rfl, rfl, ?_⟩
  simp only [runStep, delegStep, hlen, hrest, jsStr]

/-- C3, counterexample: matching `/users/42` binds the named capture
`id := "42"`, yet after running the route's single default-object step
`{ id: "def" }`, the bag holds `"def"` — `Object.assign(params, step)`
overwrote the named capture, contradicting the claim that a capture is
never overwritten by a later step's default-object contribution. -/
theorem claim_c3_counterexample :
    getProp (Router.matchPath cexRouter "/users/42" emptyParams).props (BKey.named "id")
        = some (some "42")
    ∧ getProp (Router.exec sfLog cexRouter [] "/users/42" emptyParams).2.props
          (BKey.named "id")
        = some (some "def")
    ∧ (some (some "def") : Option (Option String)) ≠ some (some "42") := by
  decide

/-- C3, amended: a plain-object step is merged with `Object.assign`
overwrite semantics — for every key, the step's last value for that key
wins over whatever the bag already held (including named captures), and
only absent keys fall back to the bag; and an object resolved by a
function step is never merged into the bag at all — the resolution value
is discarded, so two function steps agreeing on world, bag and failure but
resolving with different values yield identical pipeline runs. -/
theorem claim_c3 {W : Type} :
    (∀ (sf : Store W) (w : W) (p : Params) (ds : List (BKey × Option String)) (k : BKey),
       getProp (runStep sf w p (Step.obj ds)).2.1.props k
         = match lastVal ds k with
           | some v => some v
           | none => getProp p.props k)
    ∧ (∀ (sf : Store W) (w : W) (p : Params) (spre ssuf : List (Step W))
          (f g : Store W → W → Params → W × Params × Option Err × JsValue),
        (∀ (sf2 : Store W) (w2 : W) (p2 : Params),
            stripVal (f sf2 w2 p2) = stripVal (g sf2 w2 p2)) →
        runSteps sf w p (spre ++ Step.fn f :: ssuf)
          = runSteps sf w p (spre ++ Step.fn g :: ssuf)) := by
  constructor
  · intro sf w p ds k
    simp only [runStep]
    exact getProp_assign ds p.props k
  · intro sf w p spre ssuf f g hfg
    rw [runSteps_append, runSteps_append]
    rcases hpre : runSteps sf w p spre with ⟨w1, p1, e?⟩
    cases e? with
    | some e => rfl
    | none =>
      simp only [runSteps, runStep]
      have h := hfg sf w1 p1
      rcases hf : f sf w1 p1 with ⟨wf, pf, ef, vf⟩
      rcases hg : g sf w1 p1 with ⟨wg, pg, eg, vg⟩
      rw [hf, hg] at h
      simp only [stripVal, Prod.mk.injEq] at h
      obtain ⟨hw, hp, he⟩ := h
      rw [← hw, ← hp, ← he]
      cases ef <;> rfl

/-- C5, code bug: navigating to the unregistered `/nowhere` does yield a
bag with `error` of kind NotFound and `route` absent (first conjuncts,
matching the claim) — but with the default post hook `router.post = () =>
{}` the first `.tap` throws `TypeError` (`undefined.catch`), the promise
rejects, and although the handle is still current, the commit tap never
runs: the location marker and navigation state are NOT updated.  The
claim says only preemption suppresses the visible effect; the code also
suppresses it here. -/
theorem claim_c5 :
    (Router.exec sfLog c5Router [] "/nowhere" emptyParams).2.error = some Err.notFound
    ∧ (Router.exec sfLog c5Router [] "/nowhere" emptyParams).2.route = none
    ∧ c5Ctrl.currentHandle = { hid := 3, path := "/nowhere" }
    ∧ afterExec defaultPost { hid := 3, path := "/nowhere" } "/nowhere" c5Ctrl
          (Router.exec sfLog c5Router [] "/nowhere" emptyParams).2
        = (c5Ctrl, (Router.exec sfLog c5Router [] "/nowhere" emptyParams).2,
           some (Err.typeError "post(params).catch is not a function"))
    ∧ c5Ctrl.locationHash ≠ "#" ++ "/nowhere"
    ∧ c5Ctrl.nav.path ≠ "/nowhere" := by
  decide

/-- C9, code bug: with the default hook `router.post = () => {}` the call
`router.post(params).catch(…)` is a `TypeError` (a non-promise has no
`.catch`), so the navigate promise rejects, no `error` is recorded on the
bag, and the preemption check and commit never run even though the handle
is current; a hook that throws synchronously aborts the same way.  Only a
hook returning a rejected promise behaves as the claim states (last two
conjuncts: `error` is recorded and the commit still happens). -/
theorem claim_c9 :
    afterExec defaultPost { hid := 5, path := "/a" } "/a" c9Ctrl c9Bag
        = (c9Ctrl, c9Bag, some (Err.typeError "post(params).catch is not a function"))
    ∧ c9Ctrl.currentHandle = { hid := 5, path := "/a" }
    ∧ (afterExec defaultPost { hid := 5, path := "/a" } "/a" c9Ctrl c9Bag).2.1.error = none
    ∧ afterExec postThrow { hid := 5, path := "/a" } "/a" c9Ctrl c9Bag
        = (c9Ctrl, c9Bag, some (Err.userErr "hookboom"))
    ∧ (afterExec postReject { hid := 5, path := "/a" } "/a" c9Ctrl c9Bag).1.nav.path = "/a"
    ∧ (afterExec postReject { hid := 5, path := "/a" } "/a" c9Ctrl c9Bag).2.1.error
        = some (Err.userErr "hookboom") := by
  decide

/-- Witness for C1 at a concrete run: a stale handle's completion leaves
`ctrl0` untouched, and in the A-then-B scenario the final controller state
is exactly B's commit. -/
theorem claim_c1_witness :
    (afterExec postOk { hid := 99, path := "/z" } "/z" ctrl0 emptyParams).1 = ctrl0
    ∧ ((afterExec postOk { hid := 1, path := "/a" } "/a"
          (afterExec postOk { hid := 2, path := "/b" } "/b" c1cB emptyParams).1
          emptyParams).1
        = (afterExec postOk { hid := 2, path := "/b" } "/b" c1cB emptyParams).1
      ∧ (afterExec postOk { hid := 2, path := "/b" } "/b" c1cB emptyParams).1.locationHash
          = "#" ++ "/b"
      ∧ (afterExec postOk { hid := 2, path := "/b" } "/b" c1cB emptyParams).1.nav.path = "/b"
      ∧ (afterExec postOk { hid := 2, path := "/b" } "/b" c1cB emptyParams).1.nav.params
          = (hookPhase postOk emptyParams).1
      ∧ (afterExec postOk { hid := 2, path := "/b" } "/b" c1cB emptyParams).1.nav.progress
          = false) :=
  ⟨claim_c1.1 postOk { hid := 99, path := "/z" } "/z" emptyParams ctrl0 (by decide),
   claim_c1.2 ctrl0 "/a" "/b" emptyParams emptyParams postOk postOk c1cA c1cB
     { hid := 1, path := "/a" } { hid := 2, path := "/b" }
     (by decide) (by decide) (by decide) (by decide) (by decide)⟩

/-- Witness for C2: `/users/42` skips the non-matching `/posts/:postId`
route, selects the earlier of the two matching user routes (index 1), and
binds only its capture `id`. -/
theorem claim_c2_witness :
    Router.matchPath c2Router "/users/42" emptyParams
      = { router := some 2, route := some 1, error := none, length := some 0,
          props := [(BKey.named "id", some "42")] } :=
  claim_c2 c2Router "/users/42" emptyParams [rtPosts] [] [] rtUsers1 rtUsers2
    [some "42"] [some "42"] rfl (by decide) (by decide) (by decide)

/-- Witness for C3 (amended): the object step `{ id: "def" }` overwrites
the bound capture, and a function step resolving with an object runs
identically to one resolving with `undefined`. -/
theorem claim_c3_witness :
    getProp (runStep sfCnt 0 c3wBag (Step.obj [(BKey.named "id", some "def")])).2.1.props
        (BKey.named "id")
      = some (some "def")
    ∧ runSteps sfCnt 0 emptyParams ([] ++ Step.fn fnValObj :: [])
        = runSteps sfCnt 0 emptyParams ([] ++ Step.fn fnValUndef :: []) :=
  ⟨(@claim_c3 Nat).1 sfCnt 0 c3wBag [(BKey.named "id", some "def")] (BKey.named "id"),
   (@claim_c3 Nat).2 sfCnt 0 emptyParams [] [] fnValObj fnValUndef (fun sf2 w2 p2 => rfl)⟩

/-- Witness for C4 on an observable side-effect counter: dispatch of step 1
bumps the counter to 1, step 2 fails, and step 3's dispatch never runs —
the counter stays 1 and the bag carries the failure. -/
theorem claim_c4_witness :
    Router.exec sfCnt c4Router 0 "/x" emptyParams
      = (1, { router := some 5, route := some 0, error := some (Err.userErr "boom"),
              length := some 0, props := [] }) :=
  claim_c4 sfCnt c4Router 0 "/x" emptyParams c4pm 0 c4Route [Step.act "s1"]
    [Step.act "s3"] stepFail 1 1 c4pm c4pm (Err.userErr "boom") JsValue.undef
    rfl rfl rfl rfl

/-- Witness for C6: a pattern with numeric keys 0 and 2 yields
`length = 3`; a pattern with only a named key yields `length = 0`. -/
theorem claim_c6_witness :
    (Router.matchPath c6Router "/m/a/b/c" emptyParams).length = some 3
    ∧ (Router.matchPath c6RouterB "/n/hello" emptyParams).length = some 0 :=
  ⟨claim_c6 c6Router "/m/a/b/c" emptyParams [] [] rtMulti
     [some "a", some "b", some "c"] rfl (by decide) (by decide) (by decide),
   claim_c6 c6RouterB "/n/hello" emptyParams [] [] rtNoNum
     [some "hello"] rfl (by decide) (by decide) (by decide)⟩

/-- Witness for C7: a repeated request for the held path is a no-op, and
after a first successful `navStart` the repeated call changes nothing
while exactly one pipeline execution was started. -/
theorem claim_c7_witness :
    navStart c7done "/p" = (c7done, none)
    ∧ (navStart c1cA "/a" = (c1cA, none) ∧ c1cA.execStarts = ctrl0.execStarts + 1
        ∧ c1cA.nextHid = ctrl0.nextHid + 1 ∧ c1cA.nav = navigating ctrl0.nav) :=
  ⟨(claim_c7 c7done "/p").1 (by decide),
   (claim_c7 ctrl0 "/a").2 c1cA { hid := 1, path := "/a" } (by decide)⟩

/-- Witness for C8 at a concrete child: the synthetic `/sub/*` route is
appended with the delegation step, and on a bag with `length = 2` and rest
capture `"x/y"` the delegation step calls the child's `exec` with `/x/y`
and the pruned bag. -/
theorem claim_c8_witness :
    (Router.child ptrDemo 9 c8Parent "/sub/" [] c8ChildRoutes).1.routes
        = c8Parent.routes
          ++ [{ path := normalizePath "/sub/" ++ "/*",
                pattern := ptrDemo (normalizePath "/sub/" ++ "/*"),
                steps := []
                  ++ [delegStep (Router.child ptrDemo 9 c8Parent "/sub/" [] c8ChildRoutes).2] }]
    ∧ (Router.child ptrDemo 9 c8Parent "/sub/" [] c8ChildRoutes).2
        = { id := 9, basePath := normalizePath c8Parent.basePath ++ normalizePath "/sub/",
            routes := c8ChildRoutes }
    ∧ runStep sfLog [] c8Bag (delegStep (Router.child ptrDemo 9 c8Parent "/sub/" [] c8ChildRoutes).2)
        = (match Router.exec sfLog (Router.child ptrDemo 9 c8Parent "/sub/" [] c8ChildRoutes).2 []
              ("/" ++ "x/y")
              {c8Bag with length := some ((2 : Int) - 1),
                          props := delProp c8Bag.props (BKey.idx ((2 : Int) - 1))} with
           | (w1, p3) => (w1, p3, none, JsValue.bag p3)) :=
  claim_c8 ptrDemo 9 c8Parent "/sub/" [] c8ChildRoutes sfLog [] c8Bag 2 "x/y"
    (by decide) (by decide)

/-- Witness for C10: the named capture `id := "42"` and the earlier object
step's `role := "member"` both persist through the failure of step 2; only
`error` is added; nothing is rolled back. -/
theorem claim_c10_witness :
    (Router.exec sfCnt c10Router 0 "/users/42" emptyParams).2.props = c10p2.props
    ∧ (Router.exec sfCnt c10Router 0 "/users/42" emptyParams).2.error
        = some (Err.userErr "boom")
    ∧ (Router.exec sfCnt c10Router 0 "/users/42" emptyParams).2.length = c10p2.length
    ∧ (Router.exec sfCnt c10Router 0 "/users/42" emptyParams).2.route = c10p2.route
    ∧ (Router.exec sfCnt c10Router 0 "/users/42" emptyParams).2.router = c10p2.router :=
  claim_c10 sfCnt c10Router 0 "/users/42" emptyParams c10pm 0 c10Route
    [Step.obj [(BKey.named "role", some "member")]] [Step.act "s3"] stepFail 0 0
    c10p2 c10p2 (Err.userErr "boom") JsValue.undef rfl rfl rfl rfl

end BobRouter
